import Mathlib

/-!
# Verification of the stockfighter client library

Shallow embedding of the core of the `stockfighter` Go package: the
response-envelope protocol (`response`, `response.Err`), the request
executor (`do`), the WebSocket stream pump (`pump` specialised to the
quotes loop), order placement (`placeOrder`), the `OrderType`
enumeration codec (`MarshalText` / `UnmarshalText` / `String`), and the
order-book depth computation (`StandingOrderSlice.Depth`).

Machine integers (`uint64`) are modelled as `Nat` with explicit
reduction modulo `2 ^ 64` where the source performs arithmetic that can
overflow.  JSON (de)serialisation of a wire body is modelled by its
outcome: an `Except` value holding either the decode error or the
populated envelope and payload, exactly the two ways
`json.Decoder.Decode` can leave the caller.
-/

deriving instance DecidableEq for Except

namespace Stockfighter

/-- `2 ^ 64`, the modulus of Go's `uint64` arithmetic. -/
def u64 : Nat := 2 ^ 64

/-- From `types.go`: `Fill` — one partial or complete execution of an
order.  `TimeStamp` (a `time.Time` in the source) is modelled as
nanoseconds. -/
structure Fill where
  Price : Nat
  Quantity : Nat
  TimeStamp : Nat
deriving Repr, DecidableEq

/-- From `types.go`: `StandingOrder` — one resting book entry. -/
structure StandingOrder where
  Price : Nat
  Quantity : Nat
  IsBuy : Bool
deriving Repr, DecidableEq

/-- From `types.go`: `StandingOrderSlice.Depth` — total depth of offers.
The source iterates `depth += so.Quantity` on a `uint64` accumulator, so
every addition wraps modulo `2 ^ 64`. -/
def StandingOrderSlice.Depth (s : List StandingOrder) : Nat :=
  s.foldl (fun depth so => (depth + so.Quantity) % u64) 0

/-- From `types.go`: `OrderType` is a Go `int` (`type OrderType int`),
with declared constants 0..3. -/
abbrev OrderType := Int

/-- `Limit OrderType = iota` -/
def Limit : OrderType := 0

/-- `Market` -/
def Market : OrderType := 1

/-- `FillOrKill` -/
def FillOrKill : OrderType := 2

/-- `ImmediateOrCancel` -/
def ImmediateOrCancel : OrderType := 3

/-- From `types.go`: `orderTypes`, the wire-string table indexed by the
`OrderType` constants. -/
def orderTypes : List String :=
  ["limit", "market", "fill-or-kill", "immediate-or-cancel"]

/-- From `types.go`: `OrderType.MarshalText` returns
`[]byte(orderTypes[o])`.  Indexing the four-element array with a value
outside 0..3 panics in Go; the panic is modelled as `none`, a defined
result (`some`) as the returned wire string. -/
def OrderType.MarshalText (o : OrderType) : Option String :=
  if o < 0 then none else orderTypes.get? o.toNat

/-- From `types.go`: the `OrderType.String` method returns
`orderTypes[o]`, with the same out-of-range panic modelled as `none`.
(Renamed `StringRepr`: the source's method name `String` would shadow
the string type here.) -/
def OrderType.StringRepr (o : OrderType) : Option String :=
  if o < 0 then none else orderTypes.get? o.toNat

/-- From `types.go`: `orderTypeMap`, the decoding map from wire strings
to enumeration values. -/
def orderTypeMap : List (String × OrderType) :=
  [("limit", Limit), ("market", Market), ("fill-or-kill", FillOrKill),
    ("immediate-or-cancel", ImmediateOrCancel)]

/-- From `types.go`: `OrderType.UnmarshalText` looks the string up in
`orderTypeMap`; a missing key yields the error
`"Unknown order type: %s"`. -/
def OrderType.UnmarshalText (text : String) : Except String OrderType :=
  match orderTypeMap.lookup text with
  | some typ => Except.ok typ
  | none => Except.error ("Unknown order type: " ++ text)

/-- From `types.go`: `OrderState` — lifecycle snapshot of a placed
order.  `Timestamp` is modelled as nanoseconds. -/
structure OrderState where
  Venue : String
  Symbol : String
  Price : Nat
  OriginalQuantity : Nat
  Quantity : Nat
  Direction : String
  OrderType : OrderType
  Id : Nat
  Account : String
  Timestamp : Nat
  Fills : List Fill
  TotalFilled : Nat
  Open : Bool
deriving Repr, DecidableEq

/-- From `types.go`: `Quote` — most recent top-of-book and last-trade
view.  The two `time.Time` fields are modelled as nanoseconds. -/
structure Quote where
  Venue : String
  Symbol : String
  Bid : Nat
  BidSize : Nat
  BidDepth : Nat
  Ask : Nat
  AskSize : Nat
  AskDepth : Nat
  Last : Nat
  LastSize : Nat
  LastTrade : Nat
  QuoteTime : Nat
deriving Repr, DecidableEq

/-- From `api.go`: the embedded envelope `response` carried by every
HTTP response body, with the success flag `Ok` and the `Error`
string. -/
structure response where
  Ok : Bool
  Error : String
deriving Repr, DecidableEq

/-- From `api.go`: `response.Err` returns an error whose text is the
carried `Error` string when `len(r.Error) > 0`, and `nil` otherwise.
`none` models the `nil` error. -/
def response.Err (r : response) : Option String :=
  if 0 < r.Error.length then some r.Error else none

/-- From `api.go`: the observable part of an `http.Response` as `do`
uses it: the numeric `StatusCode`, the status line `Status`, and the
outcome of running `json.Decoder.Decode` on the body — either the
decode error or the populated envelope together with the payload fields
flattened beside it. -/
structure HttpResponse (α : Type) where
  StatusCode : Nat
  Status : String
  Decoded : Except String (response × α)

/-- From `api.go` (lines 677–703): the request executor `do` (named
`doRequest` because `do` is reserved in Lean).  Its input is the result
of `http.DefaultClient.Do`: a transport error, or an `HttpResponse`.
On a transport error the error is returned as-is; if the body fails to
decode the executor returns an error built from the status line when
`StatusCode >= 500` and the decode error otherwise; if the body decodes
it returns `value.Err()` — an error iff the envelope's error string is
non-empty — else the populated payload.  (The earlier revision of `do`
at lines 316–340 has the same envelope path but lacks the
`StatusCode >= 500` branch.) -/
def doRequest {α : Type} (transport : Except String (HttpResponse α)) :
    Except String α :=
  match transport with
  | Except.error e => Except.error e
  | Except.ok resp =>
    match resp.Decoded with
    | Except.error e =>
      if 500 ≤ resp.StatusCode then Except.error resp.Status
      else Except.error e
    | Except.ok (env, payload) =>
      match env.Err with
      | some msg => Except.error msg
      | none => Except.ok payload

/-- From `api.go`: `orderRequest`, the JSON body sent when placing an
order. -/
structure orderRequest where
  account : String
  venue : String
  stock : String
  price : Nat
  qty : Nat
  direction : String
  orderType : OrderType
deriving Repr, DecidableEq

/-- The two results of `placeOrder`: the order request it serialised
and sent, and the `(OrderState, error)` pair it returned. -/
structure PlaceOutcome where
  sent : orderRequest
  result : Except String OrderState
deriving Repr

/-- From `api.go` (lines 288–306): `placeOrder` builds the
`orderRequest` from its arguments, serialises it, issues the POST
through `do`, and on success returns `resp.OrderState` unchanged — with
no further inspection of the response.  The transport argument stands
for the HTTP exchange as in `doRequest`.  (Serialisation of an
`orderRequest` cannot return an error in the source — its only failure
mode is the out-of-range panic inside `OrderType.MarshalText` — so the
`encodeJson` step is not a branch here.)  The later revision's `Place`
(lines 514–525) has the same shape. -/
def placeOrder (account venue stock direction : String)
    (price quantity : Nat) (orderType : OrderType)
    (transport : Except String (HttpResponse OrderState)) : PlaceOutcome :=
  let order : orderRequest :=
    ⟨account, venue, stock, price, quantity, direction, orderType⟩
  { sent := order, result := doRequest transport }

/-- From `api.go`: `quoteMessage`, the shape one WebSocket frame of a
quote subscription decodes into — the `Ok` flag and the flattened
`Quote` payload (an `error` field in the frame is dropped by the
decoder, and an absent quote leaves the zero value). -/
structure quoteMessage where
  Ok : Bool
  Quote : Quote
deriving Repr, DecidableEq

/-- A frame as the quotes loop body sees it: `ReadJSON` /
`decodeMessage` either fails (read error or malformed frame) or yields
a decoded `quoteMessage`. -/
abbrev QuoteFrame := Except String quoteMessage

/-- From `api.go` (lines 342–353 with the closure of lines 211–221):
the pump's read loop `for err := f(conn); err == nil; err = f(conn)`
run over a finite history of frames.  Returns the sequence of quotes
sent on the channel and whether the loop terminated (on termination the
closure has closed the channel and the deferred `conn.Close` has
released the connection).  An exhausted history means the loop is still
blocked reading, so the channel is not closed. -/
def quotesLoop : List QuoteFrame → List Quote × Bool
  | [] => ([], false)
  | Except.error _ :: _ => ([], true)
  | Except.ok m :: rest =>
    let r := quotesLoop rest
    (if m.Ok then m.Quote :: r.1 else r.1, r.2)

/-- What the caller of `Quotes` observes of the returned channel: the
quotes delivered on it and whether it was closed. -/
structure ChannelView where
  delivered : List Quote
  closed : Bool
deriving Repr, DecidableEq

/-- The pair of values `Quotes` returns to its caller: the channel
(`none` would model returning a nil channel) and the error. -/
structure SubscribeOutcome where
  channel : Option ChannelView
  err : Option String
deriving Repr, DecidableEq

/-- From `api.go` (lines 205–222 and 342–353): `Quotes` makes the
channel, then calls `pump`, which dials once; on a dial error `pump`
returns that error without starting the loop, and `Quotes` still
returns the already-made channel (`return c, sf.pump(...)`), on which
nothing is ever sent and which is never closed.  On a successful dial
the loop runs over the connection's frames.  The dial argument stands
for the single `websocket.DefaultDialer.Dial` call: its error, or the
frame history of the established connection. -/
def Quotes (dial : Except String (List QuoteFrame)) : SubscribeOutcome :=
  match dial with
  | Except.error e => { channel := some ⟨[], false⟩, err := some e }
  | Except.ok frames =>
    let r := quotesLoop frames
    { channel := some ⟨r.1, r.2⟩, err := none }

/-- The payloads of the frames the pump successfully decodes — the
maximal decodable prefix of the wire sequence — restricted to frames
whose `Ok` flag is true, in arrival order.  This is the delivery
sequence the spec's ordering guarantee describes; it is compared with
`quotesLoop` below. -/
def okPayloads (frames : List QuoteFrame) : List Quote :=
  ((frames.takeWhile fun f => f.toOption.isSome).filterMap Except.toOption).filterMap
    fun m => if m.Ok then some m.Quote else none

/-! ## Helper lemmas -/

/-- A string is non-empty exactly when its length is positive (the
source tests `len(r.Error) > 0`; the claims speak of a non-empty error
string). -/
theorem strLengthPos (s : String) : 0 < s.length ↔ s ≠ "" := by
  constructor
  · intro h he
    subst he
    exact absurd h (by decide)
  · intro h
    rcases s with ⟨l⟩
    cases l with
    | nil => exact absurd rfl h
    | cons c cs => exact Nat.succ_pos _

/-- `response.Err`, restated by emptiness of the error string. -/
theorem response.Err_eq (r : response) :
    r.Err = if r.Error = "" then none else some r.Error := by
  unfold response.Err
  by_cases h : r.Error = ""
  · simp [h]
  · simp [h, (strLengthPos r.Error).mpr h]

/-! ## C9 — business error surfaced iff the error string is non-empty -/

/-- C9: for every envelope that decodes successfully, `do` returns an
error exactly when the envelope's `Error` string is non-empty, and that
error carries the string; the `Ok` flag (quantified here inside `env`)
and the HTTP status play no part in the outcome. -/
theorem do_error_iff_nonempty {α : Type} (status : Nat) (stext : String)
    (env : response) (payload : α) :
    doRequest (Except.ok ⟨status, stext, Except.ok (env, payload)⟩) =
      if env.Error = "" then Except.ok payload else Except.error env.Error := by
  by_cases h : env.Error = "" <;>
    simp [doRequest, response.Err_eq, h]

/-! ## C1 — Ok=false envelopes (corrected) -/

/-- C1 counterexample: an envelope with `Ok = false` but an empty error
string, received with HTTP 200, makes `do` return success — not an
error whose message equals the (empty) carried error string, as the
claim requires for every `Ok = false` envelope. -/
theorem notOk_emptyError_no_error_cex :
    doRequest (α := Unit)
        (Except.ok ⟨200, "200 OK", Except.ok (⟨false, ""⟩, ())⟩) =
      Except.ok () ∧
    doRequest (α := Unit)
        (Except.ok ⟨200, "200 OK", Except.ok (⟨false, ""⟩, ())⟩) ≠
      Except.error "" := by
  constructor
  · rfl
  · intro h
    exact absurd h (by decide)

/-- C1 amended: for every decoded envelope whose success flag is false
and whose error string is non-empty, `do` returns an error whose
message equals the carried error string, regardless of the HTTP status
code — in particular even at 200 OK. -/
theorem notOk_nonemptyError_yields_error {α : Type} (status : Nat)
    (stext msg : String) (payload : α) (h : msg ≠ "") :
    doRequest (Except.ok ⟨status, stext, Except.ok (⟨false, msg⟩, payload)⟩) =
      Except.error msg := by
  rw [do_error_iff_nonempty]
  simp [h]

/-- C1 witness: with HTTP 200 and the envelope carrying `Ok = false`,
error `"boom"`, the executor surfaces the error `"boom"`. -/
theorem notOk_nonemptyError_yields_error_witness :
    doRequest (α := Unit)
        (Except.ok ⟨200, "200 OK", Except.ok (⟨false, "boom"⟩, ())⟩) =
      Except.error "boom" :=
  notOk_nonemptyError_yields_error 200 "200 OK" "boom" () (by decide)

/-! ## C5 — status-derived errors for undecodable 5xx bodies -/

/-- C5: whenever the body fails to decode as an envelope, `do` returns
the error synthesized from the HTTP status line when the status code is
at least 500, and the raw decode error otherwise. -/
theorem do_status500_decode_failure {α : Type} (status : Nat)
    (stext e : String) :
    doRequest (α := α) (Except.ok ⟨status, stext, Except.error e⟩) =
      Except.error (if 500 ≤ status then stext else e) := by
  by_cases h : 500 ≤ status <;> simp [doRequest, h]

/-! ## Sample quotes for the concrete stream scenarios -/

/-- A first sample quote (Q1). -/
def q1 : Quote :=
  ⟨"TESTEX", "FOOBAR", 5000, 10, 100, 5100, 12, 120, 5050, 5, 1, 2⟩

/-- A second sample quote (Q2). -/
def q2 : Quote :=
  ⟨"TESTEX", "FOOBAR", 5001, 11, 101, 5101, 13, 121, 5060, 6, 3, 4⟩

/-- The Go zero `Quote` left in a `quoteMessage` by decoding a frame
that carries no quote payload (such as an error frame). -/
def q0 : Quote := ⟨"", "", 0, 0, 0, 0, 0, 0, 0, 0, 0, 0⟩

/-! ## C2 — Ok=false frames and the quote stream (corrected) -/

/-- C2 counterexample: on the frames Q1-ok, Q2-ok, not-ok (the frame
with `ok:false` and an `error` field decodes successfully into a
`quoteMessage` with `Ok = false` and the zero quote), the loop delivers
Q1 then Q2 but does NOT terminate: the channel stays open (`false`),
the connection is not released, and — as the four-frame run shows — a
further frame IS read and delivered, contrary to the claim. -/
theorem pump_notOk_frame_cex :
    quotesLoop [Except.ok ⟨true, q1⟩, Except.ok ⟨true, q2⟩,
        Except.ok ⟨false, q0⟩] = ([q1, q2], false) ∧
    quotesLoop [Except.ok ⟨true, q1⟩, Except.ok ⟨true, q2⟩,
        Except.ok ⟨false, q0⟩, Except.ok ⟨true, q1⟩] =
      ([q1, q2, q1], false) := by
  constructor <;> rfl

/-- C2 amended: a frame that decodes successfully but carries
`Ok = false` is skipped — not delivered — and the read loop continues
with the remaining frames; the channel is closed (and the connection
released) only on a read/decode failure.  On the scenario's frames, Q1
then Q2 are delivered in that order and the pump keeps consuming
whatever frames follow the not-ok frame. -/
theorem pump_notOk_frame_skipped (rest : List QuoteFrame) :
    quotesLoop (Except.ok ⟨true, q1⟩ :: Except.ok ⟨true, q2⟩ ::
        Except.ok ⟨false, q0⟩ :: rest) =
      (q1 :: q2 :: (quotesLoop rest).1, (quotesLoop rest).2) := by
  simp [quotesLoop]

/-! ## C3 — delivery order of the pump -/

/-- C3: the payloads the pump delivers on the channel are exactly the
payloads of the frames it successfully decodes (the maximal decodable
prefix of the wire sequence) whose `Ok` flag is true, in wire arrival
order — no reordering, batching, or duplication. -/
theorem pump_delivery_order (frames : List QuoteFrame) :
    (quotesLoop frames).1 = okPayloads frames := by
  induction frames with
  | nil => rfl
  | cons f rest ih =>
    cases f with
    | error e => simp [quotesLoop, okPayloads, Except.toOption]
    | ok m =>
      by_cases h : m.Ok <;>
        simp [quotesLoop, okPayloads, Except.toOption, h] <;>
        simpa [okPayloads, Except.toOption] using ih

/-! ## C4 — failed dial (corrected) -/

/-- C4 counterexample: when the dial fails, `Quotes` still returns a
channel alongside the dial error (`return c, sf.pump(...)` returns the
channel made before dialing), contradicting "no channel is returned";
the dial error itself does reach the caller. -/
theorem quotes_dial_failure_cex :
    (Quotes (Except.error "dial fail")).channel = some ⟨[], false⟩ ∧
    (Quotes (Except.error "dial fail")).channel ≠ none ∧
    (Quotes (Except.error "dial fail")).err = some "dial fail" := by
  refine ⟨rfl, ?_, rfl⟩
  intro h
  exact absurd h (by decide)

/-- C4 amended: when the initial dial fails the caller receives the
dial error directly and the dial is not retried (the single dial
outcome is consumed once and no loop starts), but a channel IS returned
alongside the error — one on which nothing is ever delivered and which
is never closed. -/
theorem quotes_dial_failure_returns_channel (e : String) :
    Quotes (Except.error e) =
      { channel := some ⟨[], false⟩, err := some e } := rfl

/-! ## C6 — order-type codec round-trip -/

/-- C6: each declared `OrderType` value (the integers 0..3, i.e.
`Limit`, `Market`, `FillOrKill`, `ImmediateOrCancel`) round-trips
through `MarshalText` then `UnmarshalText` back to the original value;
and every string outside the four wire strings makes `UnmarshalText`
return the "Unknown order type" error rather than defaulting to
`Limit`. -/
theorem orderType_roundtrip :
    (∀ o : OrderType, 0 ≤ o → o < 4 →
      ∃ s, OrderType.MarshalText o = some s ∧
        OrderType.UnmarshalText s = Except.ok o) ∧
    ∀ s : String, s ∉ orderTypes →
      OrderType.UnmarshalText s =
        Except.error ("Unknown order type: " ++ s) := by
  constructor
  · intro o h0 h4
    interval_cases o
    · exact ⟨"limit", by decide, by decide⟩
    · exact ⟨"market", by decide, by decide⟩
    · exact ⟨"fill-or-kill", by decide, by decide⟩
    · exact ⟨"immediate-or-cancel", by decide, by decide⟩
  · intro s hs
    simp only [orderTypes, List.mem_cons, List.not_mem_nil, or_false,
      not_or] at hs
    obtain ⟨h1, h2, h3, h4⟩ := hs
    have b1 : (s == "limit") = false := beq_eq_false_iff_ne.mpr h1
    have b2 : (s == "market") = false := beq_eq_false_iff_ne.mpr h2
    have b3 : (s == "fill-or-kill") = false := beq_eq_false_iff_ne.mpr h3
    have b4 : (s == "immediate-or-cancel") = false :=
      beq_eq_false_iff_ne.mpr h4
    simp [OrderType.UnmarshalText, orderTypeMap, List.lookup,
      b1, b2, b3, b4]

/-- C6 witness: `FillOrKill` round-trips through the codec, and the
undeclared wire string `"stop-loss"` is rejected with the "Unknown
order type" error. -/
theorem orderType_roundtrip_witness :
    (∃ s, OrderType.MarshalText FillOrKill = some s ∧
      OrderType.UnmarshalText s = Except.ok FillOrKill) ∧
    OrderType.UnmarshalText "stop-loss" =
      Except.error ("Unknown order type: " ++ "stop-loss") :=
  ⟨orderType_roundtrip.1 FillOrKill (by decide) (by decide),
    orderType_roundtrip.2 "stop-loss" (by decide)⟩

/-! ## C10 — encoding is total exactly on the declared range -/

/-- C10: `MarshalText` and the `String` method return the wire string
for each of the four declared constants, and for every `OrderType`
integer they produce a defined result exactly when the value lies in
0..3 — outside that range the array index into `orderTypes` is out of
bounds and encoding fails (the Go panic, modelled as `none`). -/
theorem marshal_total_iff_in_range :
    (OrderType.MarshalText Limit = some "limit" ∧
      OrderType.MarshalText Market = some "market" ∧
      OrderType.MarshalText FillOrKill = some "fill-or-kill" ∧
      OrderType.MarshalText ImmediateOrCancel =
        some "immediate-or-cancel") ∧
    ∀ o : OrderType,
      ((OrderType.MarshalText o).isSome ↔ 0 ≤ o ∧ o < 4) ∧
      ((OrderType.StringRepr o).isSome ↔ 0 ≤ o ∧ o < 4) := by
  refine ⟨⟨by decide, by decide, by decide, by decide⟩, ?_⟩
  intro o
  have key : ∀ m : Int,
      ((if m < 0 then none else orderTypes.get? m.toNat) :
        Option String).isSome ↔ 0 ≤ m ∧ m < 4 := by
    intro m
    by_cases h : m < 0
    · simp [h]
    · rw [if_neg h, List.get?_eq_getElem?, ← Option.ne_none_iff_isSome]
      simp only [ne_eq, List.getElem?_eq_none_iff, not_le]
      simp only [orderTypes, List.length_cons, List.length_nil]
      omega
  exact ⟨key o, key o⟩

/-! ## C7 — depth is the quantity sum, invariant under permutation -/

/-- The fold computing `Depth` from any accumulator below the `uint64`
modulus equals the wrapped sum of the accumulator and the
quantities. -/
theorem depth_foldl (s : List StandingOrder) :
    ∀ acc : Nat, acc < u64 →
      s.foldl (fun depth so => (depth + so.Quantity) % u64) acc =
        (acc + (s.map StandingOrder.Quantity).sum) % u64 := by
  induction s with
  | nil =>
    intro acc hacc
    simp [Nat.mod_eq_of_lt hacc]
  | cons so rest ih =>
    intro acc hacc
    rw [List.foldl_cons, ih _ (Nat.mod_lt _ (by simp [u64]))]
    simp [Nat.add_assoc, Nat.add_mod_left, Nat.mod_add_mod]

/-- C7: for every list of standing orders, `Depth` equals the sum of
the constituent quantities (in `uint64` arithmetic, i.e. modulo
`2 ^ 64`), and for every permutation `t` of `s` the two depths are
equal. -/
theorem depth_sum_perm (s t : List StandingOrder) (h : s.Perm t) :
    StandingOrderSlice.Depth s =
      (s.map StandingOrder.Quantity).sum % u64 ∧
    StandingOrderSlice.Depth s = StandingOrderSlice.Depth t := by
  have hs := depth_foldl s 0 (by simp [u64])
  have ht := depth_foldl t 0 (by simp [u64])
  refine ⟨by simpa using hs, ?_⟩
  rw [StandingOrderSlice.Depth, StandingOrderSlice.Depth, hs, ht,
    (h.map StandingOrder.Quantity).sum_eq]

/-- C7 witness: on a concrete two-element book and its transposition,
the depth equals the wrapped quantity sum and is unchanged by the
re-sorting. -/
theorem depth_sum_perm_witness :
    StandingOrderSlice.Depth [⟨5100, 12, false⟩, ⟨5000, 10, true⟩] =
      (([⟨5100, 12, false⟩, ⟨5000, 10, true⟩] :
        List StandingOrder).map StandingOrder.Quantity).sum % u64 ∧
    StandingOrderSlice.Depth [⟨5100, 12, false⟩, ⟨5000, 10, true⟩] =
      StandingOrderSlice.Depth [⟨5000, 10, true⟩, ⟨5100, 12, false⟩] :=
  depth_sum_perm [⟨5100, 12, false⟩, ⟨5000, 10, true⟩]
    [⟨5000, 10, true⟩, ⟨5100, 12, false⟩]
    (List.Perm.swap (⟨5000, 10, true⟩ : StandingOrder)
      (⟨5100, 12, false⟩ : StandingOrder) [])

/-! ## C8 — no venue/symbol validation on order placement (corrected) -/

/-- The order state a mismatching response carries: venue `OTHEREX`
although the request below goes to `TESTEX`. -/
def otherExState : OrderState :=
  ⟨"OTHEREX", "FOOBAR", 100, 10, 10, "buy", 0, 42, "ACC123", 7, [], 0,
    true⟩

/-- C8 counterexample: a placement request to venue `TESTEX` whose
response payload carries venue `OTHEREX` is returned as a plain
successful `OrderState` — no validation error is raised, contrary to
the claim. -/
theorem placeOrder_mismatch_cex :
    (placeOrder "ACC123" "TESTEX" "FOOBAR" "buy" 100 10 Limit
        (Except.ok ⟨200, "200 OK",
          Except.ok (⟨true, ""⟩, otherExState)⟩)).sent.venue =
      "TESTEX" ∧
    (placeOrder "ACC123" "TESTEX" "FOOBAR" "buy" 100 10 Limit
        (Except.ok ⟨200, "200 OK",
          Except.ok (⟨true, ""⟩, otherExState)⟩)).result =
      Except.ok otherExState ∧
    otherExState.Venue = "OTHEREX" := ⟨rfl, rfl, rfl⟩

/-- C8 amended: `placeOrder` performs no post-decode validation of the
echoed venue or symbol: whenever the response envelope decodes with an
empty error string, the decoded `OrderState` is returned unchanged —
even when its venue or symbol differ from those of the request. -/
theorem placeOrder_no_validation (account venue stock direction : String)
    (price quantity : Nat) (orderType : OrderType) (status : Nat)
    (stext : String) (ok : Bool) (st : OrderState) :
    (placeOrder account venue stock direction price quantity orderType
        (Except.ok ⟨status, stext, Except.ok (⟨ok, ""⟩, st)⟩)).result =
      Except.ok st := by
  simp [placeOrder, doRequest, response.Err]

end Stockfighter
